import Mathlib

/-
Verification development for the network-parameter registry and the
difficulty-window dampening model of the rmgd chaincfg package
(src/chaincfg/params.go).

Modelling conventions:
  * Go machine integers are modelled as unbounded Int with explicit 64-bit
    two-complement wraparound (wrap64) applied where the Go code performs
    int64 arithmetic (time.Duration is an int64 count of nanoseconds, so
    time.Minute = 60000000000).
  * Go integer division truncates toward zero; tdiv models it for a
    positive divisor (the only divisor used in this code is 100).
  * The package-level mutable maps (registeredNets, pubKeyHashAddrIDs,
    scriptHashAddrIDs, aztecAddrIDs, hdPrivToPubKeyIDs) are modelled as an
    explicit RegistryState record threaded through Register and the query
    functions.  Go map insertion overwrites, which the model renders by
    consing the new binding in front and letting lookup take the first
    match, so a later insert shadows an earlier one, exactly as in Go.
  * Fallible Go functions returning (value, error) are modelled with
    Except; Register additionally returns the post-call state, paired with
    the Option error exactly as the Go function pairs its map mutations
    with its error return.
  * Params carries the fields that the registry and the dampening model
    read.  The remaining fields of the Go struct (genesis data, checkpoint
    lists, pow limits, relay policy, and so on) are inert data never read
    by the functions under verification and are omitted.
-/

namespace Prova

/-- Two-complement wraparound of signed 64-bit integer arithmetic: maps an
unbounded integer to the representative in [-2^63, 2^63) that a Go int64
computation would produce. -/
def wrap64 (x : Int) : Int := (x + 2 ^ 63) % (2 ^ 64) - 2 ^ 63

/-- Go integer division for a positive divisor: truncation toward zero
(Go spec: the quotient is truncated towards zero). -/
def tdiv (a b : Int) : Int :=
  if 0 ≤ a then ((a.toNat / b.toNat : Nat) : Int)
  else -(((-a).toNat / b.toNat : Nat) : Int)

/-- Fixed 4-byte array, the Go type [4]byte used for the BIP32 hierarchical
deterministic extended key magics (bytes as Nat). -/
structure Bytes4 where
  b0 : Nat
  b1 : Nat
  b2 : Nat
  b3 : Nat
  deriving DecidableEq, Repr

/-- List view of a 4-byte array, the Go slice k[:] of a [4]byte value. -/
def Bytes4.toList (k : Bytes4) : List Nat := [k.b0, k.b1, k.b2, k.b3]

/-- Conversion of a Go byte slice to a [4]byte key: succeeds exactly when
the slice has length 4 (the Go code checks len(id) != 4 and then copies the
four bytes into the key). -/
def bytes4OfList : List Nat → Option Bytes4
  | [a, b, c, d] => some ⟨a, b, c, d⟩
  | _ => none

/-- Fields of chaincfg.Params read by the registry and by the dampening
model (src/chaincfg/params.go, type Params).  Bytes are Nat, Net is the
wire.BitcoinNet magic as Nat, and the three pow adjustment fields together
with TargetTimePerBlock (a time.Duration, int64 nanoseconds) and
PowAveragingWindow (a Go int) are Int. -/
structure Params where
  Net : Nat
  PubKeyHashAddrID : Nat
  ScriptHashAddrID : Nat
  AztecAddrID : Nat
  PrivateKeyID : Nat
  HDPrivateKeyID : Bytes4
  HDPublicKeyID : Bytes4
  PowAveragingWindow : Int
  TargetTimePerBlock : Int
  PowMaxAdjustDown : Int
  PowMaxAdjustUp : Int
  deriving DecidableEq, Repr

/-- AveragingWindowTimespan (params.go lines 181-184):
time.Duration(p.PowAveragingWindow) * p.TargetTimePerBlock, an int64
multiplication. -/
def AveragingWindowTimespan (p : Params) : Int :=
  wrap64 (p.PowAveragingWindow * p.TargetTimePerBlock)

/-- MaxActualTimespan (params.go lines 169-173):
(p.AveragingWindowTimespan() * time.Duration(100 + p.PowMaxAdjustDown)) / 100
in int64 arithmetic. -/
def MaxActualTimespan (p : Params) : Int :=
  tdiv (wrap64 (AveragingWindowTimespan p * wrap64 (100 + p.PowMaxAdjustDown))) 100

/-- MinActualTimespan (params.go lines 175-179):
(p.AveragingWindowTimespan() * time.Duration(100 - p.PowMaxAdjustUp)) / 100
in int64 arithmetic. -/
def MinActualTimespan (p : Params) : Int :=
  tdiv (wrap64 (AveragingWindowTimespan p * wrap64 (100 - p.PowMaxAdjustUp))) 100

/-- Errors of the chaincfg package: ErrDuplicateNet and ErrUnknownHDKeyID
(params.go lines 557-567). -/
inductive ChainErr where
  | duplicateNet
  | unknownHDKeyID
  deriving DecidableEq, Repr

/-- State of the five package-level lookup structures (params.go lines
569-575).  Go maps used as sets become lists of claimed keys; the HD map
becomes an association list where the front-most binding for a key is the
current one. -/
structure RegistryState where
  registeredNets : List Nat
  pubKeyHashAddrIDs : List Nat
  scriptHashAddrIDs : List Nat
  aztecAddrIDs : List Nat
  hdPrivToPubKeyIDs : List (Bytes4 × Bytes4)
  deriving DecidableEq, Repr

/-- State of the package before any registration: all five structures
empty (the make(...) initialisers at params.go lines 569-575). -/
def freshRegistry : RegistryState := ⟨[], [], [], [], []⟩

/-- Register (params.go lines 586-598).  Returns the Go error value (none
for nil) paired with the package state after the call: on a duplicate
network magic it returns ErrDuplicateNet before touching any map, otherwise
it claims the magic, claims the two hash address id bytes unconditionally,
claims the aztec id byte only when it is non-zero, and writes the
HDPrivateKeyID to HDPublicKeyID binding (a Go map assignment, so a later
write shadows an earlier one). -/
def Register (params : Params) (s : RegistryState) : Option ChainErr × RegistryState :=
  if params.Net ∈ s.registeredNets then (some .duplicateNet, s)
  else
    (none,
      { registeredNets := params.Net :: s.registeredNets
        pubKeyHashAddrIDs := params.PubKeyHashAddrID :: s.pubKeyHashAddrIDs
        scriptHashAddrIDs := params.ScriptHashAddrID :: s.scriptHashAddrIDs
        aztecAddrIDs :=
          if params.AztecAddrID ≠ 0 then params.AztecAddrID :: s.aztecAddrIDs
          else s.aztecAddrIDs
        hdPrivToPubKeyIDs := (params.HDPrivateKeyID, params.HDPublicKeyID) :: s.hdPrivToPubKeyIDs })

/-- State of the package after a Register call whose error the caller does
not act on for state purposes (the Go maps are globals, so the state after
a failing call is the state before it). -/
def registerIgnore (p : Params) (s : RegistryState) : RegistryState := (Register p s).2

/-- State of the package after a sequence of Register calls, successful or
failing. -/
def runRegisters (ps : List Params) (s : RegistryState) : RegistryState :=
  ps.foldl (fun acc p => registerIgnore p acc) s

/-- IsPubKeyHashAddrID (params.go lines 614-617): membership of the id byte
in the claimed pubkey-hash set. -/
def IsPubKeyHashAddrID (s : RegistryState) (id : Nat) : Bool :=
  decide (id ∈ s.pubKeyHashAddrIDs)

/-- IsScriptHashAddrID (params.go lines 625-628): membership of the id byte
in the claimed script-hash set. -/
def IsScriptHashAddrID (s : RegistryState) (id : Nat) : Bool :=
  decide (id ∈ s.scriptHashAddrIDs)

/-- IsAztecAddrID (params.go lines 633-636): membership of the id byte in
the claimed aztec set. -/
def IsAztecAddrID (s : RegistryState) (id : Nat) : Bool :=
  decide (id ∈ s.aztecAddrIDs)

/-- Lookup in the modelled hdPrivToPubKeyIDs map: first binding wins, which
renders the Go map state in which the most recent assignment for a key is
visible (Register conses new bindings in front). -/
def hdLookup : List (Bytes4 × Bytes4) → Bytes4 → Option Bytes4
  | [], _ => none
  | (k, v) :: rest, key => if k = key then some v else hdLookup rest key

/-- HDPrivateKeyToPublicKeyID (params.go lines 641-654): returns
ErrUnknownHDKeyID when the input slice is not exactly 4 bytes long or the
4-byte key is absent from the map, and the registered public magic bytes
otherwise. -/
def HDPrivateKeyToPublicKeyID (s : RegistryState) (id : List Nat) : Except ChainErr (List Nat) :=
  match bytes4OfList id with
  | none => .error .unknownHDKeyID
  | some key =>
    match hdLookup s.hdPrivToPubKeyIDs key with
    | none => .error .unknownHDKeyID
    | some pubBytes => .ok pubBytes.toList

/-- Modelled from the spec: the four built-in network magic constants
(wire.MainNet, wire.TestNet, wire.TestNet3, wire.SimNet) live in the wire
package, which is not among the provided sources.  The spec requires only
that each network magic is a fixed-width identifier globally unique across
registered networks, so the four built-ins are modelled as four distinct
naturals. -/
def wireMainNet : Nat := 0

/-- Modelled from the spec: see wireMainNet. -/
def wireTestNet : Nat := 1

/-- Modelled from the spec: see wireMainNet. -/
def wireTestNet3 : Nat := 2

/-- Modelled from the spec: see wireMainNet. -/
def wireSimNet : Nat := 3

/-- MainNetParams (params.go lines 187-276), restricted to the fields the
registry and the dampening model read.  TargetTimePerBlock is time.Minute =
60000000000 nanoseconds. -/
def MainNetParams : Params :=
  { Net := wireMainNet
    PubKeyHashAddrID := 0x00
    ScriptHashAddrID := 0x05
    AztecAddrID := 0x33
    PrivateKeyID := 0x80
    HDPrivateKeyID := ⟨0x04, 0x88, 0xad, 0xe4⟩
    HDPublicKeyID := ⟨0x04, 0x88, 0xb2, 0x1e⟩
    PowAveragingWindow := 17
    TargetTimePerBlock := 60000000000
    PowMaxAdjustDown := 32
    PowMaxAdjustUp := 16 }

/-- RegressionNetParams (params.go lines 281-364), restricted as for
MainNetParams. -/
def RegressionNetParams : Params :=
  { Net := wireTestNet
    PubKeyHashAddrID := 0x6f
    ScriptHashAddrID := 0xc4
    AztecAddrID := 0x58
    PrivateKeyID := 0xef
    HDPrivateKeyID := ⟨0x04, 0x35, 0x83, 0x94⟩
    HDPublicKeyID := ⟨0x04, 0x35, 0x87, 0xcf⟩
    PowAveragingWindow := 17
    TargetTimePerBlock := 60000000000
    PowMaxAdjustDown := 32
    PowMaxAdjustUp := 16 }

/-- TestNet3Params (params.go lines 369-458), restricted as for
MainNetParams. -/
def TestNet3Params : Params :=
  { Net := wireTestNet3
    PubKeyHashAddrID := 0x6f
    ScriptHashAddrID := 0xc4
    AztecAddrID := 0x58
    PrivateKeyID := 0xef
    HDPrivateKeyID := ⟨0x04, 0x35, 0x83, 0x94⟩
    HDPublicKeyID := ⟨0x04, 0x35, 0x87, 0xcf⟩
    PowAveragingWindow := 17
    TargetTimePerBlock := 60000000000
    PowMaxAdjustDown := 64
    PowMaxAdjustUp := 64 }

/-- SimNetParams (params.go lines 467-555), restricted as for
MainNetParams.  The Go literal sets no AztecAddrID, so the field has the Go
zero value 0x00. -/
def SimNetParams : Params :=
  { Net := wireSimNet
    PubKeyHashAddrID := 0x3f
    ScriptHashAddrID := 0x7b
    AztecAddrID := 0x00
    PrivateKeyID := 0x64
    HDPrivateKeyID := ⟨0x04, 0x20, 0xb9, 0x00⟩
    HDPublicKeyID := ⟨0x04, 0x20, 0xbd, 0x3a⟩
    PowAveragingWindow := 17
    TargetTimePerBlock := 60000000000
    PowMaxAdjustDown := 32
    PowMaxAdjustUp := 16 }

/-- Registration order of the package init function (params.go lines
682-688): main, testnet3, regression, simulation. -/
def builtinRegistrationOrder : List Params :=
  [MainNetParams, TestNet3Params, RegressionNetParams, SimNetParams]

/-- State of the package after init has registered the four built-in
networks. -/
def afterBuiltins : RegistryState :=
  runRegisters builtinRegistrationOrder freshRegistry

/-- Formula following the words of the spec for the refinement claim about
the dampening model: averaging_window * target_block_time, evaluated in the
int64 duration arithmetic the code uses. -/
def spec_averagingWindowTimespan (p : Params) : Int :=
  wrap64 (p.PowAveragingWindow * p.TargetTimePerBlock)

/-- Formula following the words of the spec:
averaging_window_timespan * (100 + max_adjust_down_pct) / 100, with the
multiplication performed before the truncating division by 100. -/
def spec_maxActualTimespan (p : Params) : Int :=
  tdiv (wrap64 (spec_averagingWindowTimespan p * wrap64 (100 + p.PowMaxAdjustDown))) 100

/-- Formula following the words of the spec:
averaging_window_timespan * (100 - max_adjust_up_pct) / 100, with the
multiplication performed before the truncating division by 100. -/
def spec_minActualTimespan (p : Params) : Int :=
  tdiv (wrap64 (spec_averagingWindowTimespan p * wrap64 (100 - p.PowMaxAdjustUp))) 100

/-- Variant of the dampened upper bound with the truncating division by 100
performed before the multiplication, used only to show that the order of
operations is observable in the output. -/
def divideFirstMaxActualTimespan (p : Params) : Int :=
  wrap64 (AveragingWindowTimespan p * tdiv (wrap64 (100 + p.PowMaxAdjustDown)) 100)

/-- Custom (non-built-in) parameter record used as a concrete test network
for registration scenarios. -/
def customA : Params :=
  { Net := 1001
    PubKeyHashAddrID := 0x10
    ScriptHashAddrID := 0x11
    AztecAddrID := 0x12
    PrivateKeyID := 0x13
    HDPrivateKeyID := ⟨1, 2, 3, 4⟩
    HDPublicKeyID := ⟨5, 6, 7, 8⟩
    PowAveragingWindow := 17
    TargetTimePerBlock := 60000000000
    PowMaxAdjustDown := 32
    PowMaxAdjustUp := 16 }

/-- Custom parameter record with a network magic distinct from customA but
the same HDPrivateKeyID and the same PubKeyHashAddrID byte, and a different
HDPublicKeyID. -/
def customB : Params :=
  { customA with Net := 1002, HDPublicKeyID := ⟨9, 9, 9, 9⟩ }

/-- Parameter record whose duration arithmetic overflows int64: the product
averaging window times block time is 2 to the 57th nanoseconds, and the
down-dampened product exceeds 2 to the 63rd. -/
def overflowParams : Params :=
  { Net := 99
    PubKeyHashAddrID := 1
    ScriptHashAddrID := 2
    AztecAddrID := 3
    PrivateKeyID := 4
    HDPrivateKeyID := ⟨0, 0, 0, 1⟩
    HDPublicKeyID := ⟨0, 0, 0, 2⟩
    PowAveragingWindow := 1
    TargetTimePerBlock := 2 ^ 57
    PowMaxAdjustDown := 100
    PowMaxAdjustUp := 0 }

/-
Helper lemmas shared by the claim theorems.
-/

lemma wrap64_eq_self (x : Int) (h1 : -2 ^ 63 ≤ x) (h2 : x < 2 ^ 63) : wrap64 x = x := by
  unfold wrap64; omega

lemma tdiv_eq_of_nonneg (a b : Int) (h : 0 ≤ a) :
    tdiv a b = ((a.toNat / b.toNat : Nat) : Int) := by
  unfold tdiv; rw [if_pos h]

lemma tdiv_eq_ediv (a : Int) (h : 0 ≤ a) : tdiv a 100 = a / 100 := by
  rw [tdiv_eq_of_nonneg a 100 h]
  have h100 : (100 : Int).toNat = 100 := rfl
  rw [h100]
  omega

lemma bytes4OfList_eq_none_iff (id : List Nat) : bytes4OfList id = none ↔ id.length ≠ 4 := by
  rcases id with _ | ⟨a, _ | ⟨b, _ | ⟨c, _ | ⟨d, _ | ⟨e, rest⟩⟩⟩⟩⟩ <;> simp [bytes4OfList]

lemma bytes4OfList_length (id : List Nat) (key : Bytes4) (h : bytes4OfList id = some key) :
    id.length = 4 := by
  by_contra hlen
  have hn := (bytes4OfList_eq_none_iff id).mpr hlen
  rw [h] at hn
  exact Option.noConfusion hn

lemma bytes4OfList_toList (k : Bytes4) : bytes4OfList k.toList = some k := rfl

lemma register_not_mem (p : Params) (s : RegistryState) (h : p.Net ∉ s.registeredNets) :
    Register p s =
      (none,
        { registeredNets := p.Net :: s.registeredNets
          pubKeyHashAddrIDs := p.PubKeyHashAddrID :: s.pubKeyHashAddrIDs
          scriptHashAddrIDs := p.ScriptHashAddrID :: s.scriptHashAddrIDs
          aztecAddrIDs :=
            if p.AztecAddrID ≠ 0 then p.AztecAddrID :: s.aztecAddrIDs else s.aztecAddrIDs
          hdPrivToPubKeyIDs := (p.HDPrivateKeyID, p.HDPublicKeyID) :: s.hdPrivToPubKeyIDs }) := by
  unfold Register
  rw [if_neg h]

/-- Claim C1: Register fails with ErrDuplicateNet exactly when the network
magic of the given parameters is already in the claimed set; registering
the four built-in networks into a fresh registry in init order succeeds
once each, and a second Register of any of them against the resulting
state fails with ErrDuplicateNet. -/
theorem register_duplicate_iff_builtins :
    (∀ (p : Params) (s : RegistryState),
        (Register p s).1 = some ChainErr.duplicateNet ↔ p.Net ∈ s.registeredNets) ∧
    (Register MainNetParams freshRegistry).1 = none ∧
    (Register TestNet3Params (runRegisters [MainNetParams] freshRegistry)).1 = none ∧
    (Register RegressionNetParams
      (runRegisters [MainNetParams, TestNet3Params] freshRegistry)).1 = none ∧
    (Register SimNetParams
      (runRegisters [MainNetParams, TestNet3Params, RegressionNetParams] freshRegistry)).1 =
        none ∧
    (∀ p ∈ builtinRegistrationOrder,
        (Register p afterBuiltins).1 = some ChainErr.duplicateNet) := by
  refine ⟨fun p s => ?_, by decide, by decide, by decide, by decide, by decide⟩
  by_cases h : p.Net ∈ s.registeredNets <;> simp [Register, h]

/-- Claim C2: the three dampening functions compute exactly the formulas of
the spec, with the window product first, then the multiplication by the
dampening percentage, then the truncating division by 100; moreover the
order of multiply and divide is observable, since performing the division
by 100 first yields a different value already on the main network
parameters. -/
theorem timespan_formulas_refinement :
    (∀ p : Params,
        AveragingWindowTimespan p = spec_averagingWindowTimespan p ∧
        MaxActualTimespan p = spec_maxActualTimespan p ∧
        MinActualTimespan p = spec_minActualTimespan p) ∧
    MaxActualTimespan MainNetParams ≠ divideFirstMaxActualTimespan MainNetParams :=
  ⟨fun _ => ⟨rfl, rfl, rfl⟩, by decide⟩

/-- Claim C5 counterexample: on the main network values (window 17, block
time one minute, dampening 32 and 16 percent) the code returns
1346400000000 nanoseconds (1346.4 s) and 856800000000 nanoseconds
(856.8 s), not the 1346 s and 856 s the claim states: time.Duration counts
nanoseconds, so the multiply-then-divide arithmetic divides exactly and no
truncation to whole seconds occurs. -/
theorem mainnet_timespan_seconds_cex :
    MainNetParams.PowAveragingWindow = 17 ∧
    MainNetParams.TargetTimePerBlock = 60 * 1000000000 ∧
    MainNetParams.PowMaxAdjustDown = 32 ∧
    MainNetParams.PowMaxAdjustUp = 16 ∧
    AveragingWindowTimespan MainNetParams = 1020 * 1000000000 ∧
    MaxActualTimespan MainNetParams ≠ 1346 * 1000000000 ∧
    MinActualTimespan MainNetParams ≠ 856 * 1000000000 := by decide

/-- Claim C5 as amended: on the main network values the averaging window
timespan is 1020 s, the dampened maximum is 1346.4 s and the dampened
minimum is 856.8 s, all exact at nanosecond resolution. -/
theorem mainnet_timespan_values :
    AveragingWindowTimespan MainNetParams = 1020000000000 ∧
    MaxActualTimespan MainNetParams = 1346400000000 ∧
    MinActualTimespan MainNetParams = 856800000000 := by decide

/-- Claim C9: when Register returns ErrDuplicateNet the package state is
completely unchanged: the duplicate check precedes every map write. -/
theorem register_error_leaves_state (p : Params) (s : RegistryState)
    (h : (Register p s).1 = some ChainErr.duplicateNet) :
    (Register p s).2 = s := by
  unfold Register at h ⊢
  by_cases hm : p.Net ∈ s.registeredNets
  · rw [if_pos hm]
  · rw [if_neg hm] at h
    exact Option.noConfusion h

/-- Witness for claim C9 at a concrete input: re-registering the main
network after init leaves the state after init intact. -/
theorem register_error_leaves_state_witness :
    (Register MainNetParams afterBuiltins).2 = afterBuiltins :=
  register_error_leaves_state MainNetParams afterBuiltins (by decide)

/-- Claim C3: HDPrivateKeyToPublicKeyID fails with ErrUnknownHDKeyID
exactly when the input is not 4 bytes long or its 4-byte key is absent from
the registered map, and otherwise returns the public magic registered for
that private magic; after init, the main network private magic maps to the
main network public magic, a never-registered 4-byte value fails, and
3-byte and 5-byte inputs fail. -/
theorem hdPrivateToPublic_spec :
    (∀ (s : RegistryState) (id : List Nat),
        HDPrivateKeyToPublicKeyID s id = .error ChainErr.unknownHDKeyID ↔
          (id.length ≠ 4 ∨
            ∀ key, bytes4OfList id = some key → hdLookup s.hdPrivToPubKeyIDs key = none)) ∧
    (∀ (s : RegistryState) (id : List Nat) (key pub : Bytes4),
        bytes4OfList id = some key → hdLookup s.hdPrivToPubKeyIDs key = some pub →
          HDPrivateKeyToPublicKeyID s id = .ok pub.toList) ∧
    HDPrivateKeyToPublicKeyID afterBuiltins MainNetParams.HDPrivateKeyID.toList =
      .ok MainNetParams.HDPublicKeyID.toList ∧
    HDPrivateKeyToPublicKeyID afterBuiltins [0, 0, 0, 0] = .error ChainErr.unknownHDKeyID ∧
    HDPrivateKeyToPublicKeyID afterBuiltins [0x04, 0x88, 0xad] =
      .error ChainErr.unknownHDKeyID ∧
    HDPrivateKeyToPublicKeyID afterBuiltins [0x04, 0x88, 0xad, 0xe4, 0x00] =
      .error ChainErr.unknownHDKeyID := by
  refine ⟨fun s id => ?_, fun s id key pub hkey hlook => ?_, rfl, rfl, rfl, rfl⟩
  · cases hb : bytes4OfList id with
    | none =>
      have hlen := (bytes4OfList_eq_none_iff id).mp hb
      simp [HDPrivateKeyToPublicKeyID, hb, hlen]
    | some key =>
      have hlen : id.length = 4 := bytes4OfList_length id key hb
      cases hl : hdLookup s.hdPrivToPubKeyIDs key with
      | none => simp [HDPrivateKeyToPublicKeyID, hb, hl, hlen]
      | some pub => simp [HDPrivateKeyToPublicKeyID, hb, hl, hlen]
  · simp [HDPrivateKeyToPublicKeyID, hkey, hlook]

/-- Claim C4: a successful Register adds the network magic to the claimed
set, claims the pubkey-hash and script-hash bytes unconditionally, claims
the aztec byte only when non-zero (a zero aztec byte leaves the aztec set
untouched), and inserts the private-to-public HD magic binding; in a fresh
registry every membership test is false. -/
theorem register_success_effects (p : Params) (s s2 : RegistryState)
    (h : Register p s = (none, s2)) :
    IsPubKeyHashAddrID s2 p.PubKeyHashAddrID = true ∧
    IsScriptHashAddrID s2 p.ScriptHashAddrID = true ∧
    p.Net ∈ s2.registeredNets ∧
    (p.AztecAddrID ≠ 0 → IsAztecAddrID s2 p.AztecAddrID = true) ∧
    (p.AztecAddrID = 0 → IsAztecAddrID s2 0 = IsAztecAddrID s 0) ∧
    hdLookup s2.hdPrivToPubKeyIDs p.HDPrivateKeyID = some p.HDPublicKeyID ∧
    (∀ b, IsPubKeyHashAddrID freshRegistry b = false) ∧
    (∀ b, IsScriptHashAddrID freshRegistry b = false) ∧
    (∀ b, IsAztecAddrID freshRegistry b = false) := by
  unfold Register at h
  by_cases hm : p.Net ∈ s.registeredNets
  · rw [if_pos hm] at h
    exact absurd (congrArg Prod.fst h) (by simp)
  · rw [if_neg hm] at h
    have hs2 := (Prod.mk.injEq _ _ _ _).mp h |>.2
    subst hs2
    refine ⟨?_, ?_, ?_, ?_, ?_, ?_, ?_, ?_, ?_⟩
    · simp [IsPubKeyHashAddrID]
    · simp [IsScriptHashAddrID]
    · exact List.mem_cons_self _ _
    · intro ha
      simp [IsAztecAddrID, if_pos ha]
    · intro ha
      simp only [IsAztecAddrID]
      rw [if_neg (by simp [ha])]
    · simp [hdLookup]
    · intro b; rfl
    · intro b; rfl
    · intro b; rfl

/-- Witness for claim C4 at a concrete input: registering the simulation
network (whose aztec byte is zero) into a fresh registry claims its
pubkey-hash byte and leaves the aztec set untouched. -/
theorem register_success_effects_witness :
    IsPubKeyHashAddrID (registerIgnore SimNetParams freshRegistry) 0x3f = true ∧
    IsAztecAddrID (registerIgnore SimNetParams freshRegistry) 0 =
      IsAztecAddrID freshRegistry 0 := by
  have h := register_success_effects SimNetParams freshRegistry
    (registerIgnore SimNetParams freshRegistry) (by decide)
  exact ⟨h.1, h.2.2.2.2.1 rfl⟩

/-- Claim C6 counterexample: customA and customB share the HD private magic
but carry different public magics; both register successfully into a fresh
registry, and the lookup afterwards returns the public magic of the
second-registered record, not that of the first. -/
theorem hd_first_wins_cex :
    customA.HDPrivateKeyID = customB.HDPrivateKeyID ∧
    customA.Net ≠ customB.Net ∧
    (Register customA freshRegistry).1 = none ∧
    (Register customB (Register customA freshRegistry).2).1 = none ∧
    HDPrivateKeyToPublicKeyID (Register customB (Register customA freshRegistry).2).2
      customA.HDPrivateKeyID.toList = .ok customB.HDPublicKeyID.toList ∧
    customB.HDPublicKeyID.toList ≠ customA.HDPublicKeyID.toList :=
  ⟨rfl, by decide, by decide, by decide, rfl, by decide⟩

/-- Claim C6 as amended: when two records with the same HD private magic
are registered in sequence, the duplicate private magic does not make the
second registration fail, and the mapping established by the LAST
registration wins: the lookup on that private magic returns the public
magic of the second-registered record. -/
theorem hd_last_registration_wins (p1 p2 : Params) (s : RegistryState)
    (_hfirst : (Register p1 s).1 = none)
    (hnet : p2.Net ∉ (Register p1 s).2.registeredNets)
    (hk : p1.HDPrivateKeyID = p2.HDPrivateKeyID) :
    (Register p2 (Register p1 s).2).1 = none ∧
    HDPrivateKeyToPublicKeyID (Register p2 (Register p1 s).2).2 p1.HDPrivateKeyID.toList =
      .ok p2.HDPublicKeyID.toList := by
  rw [hk, register_not_mem p2 _ hnet]
  refine ⟨rfl, ?_⟩
  simp [HDPrivateKeyToPublicKeyID, bytes4OfList_toList, hdLookup]

/-- Witness for the amended claim C6 at a concrete input: after registering
customA then customB, the shared private magic resolves to the public magic
of customB. -/
theorem hd_last_registration_wins_witness :
    (Register customB (Register customA freshRegistry).2).1 = none ∧
    HDPrivateKeyToPublicKeyID (Register customB (Register customA freshRegistry).2).2
      customA.HDPrivateKeyID.toList = .ok customB.HDPublicKeyID.toList :=
  hd_last_registration_wins customA customB freshRegistry (by decide) (by decide) rfl

/-- Claim C7: two records with distinct network magics, neither yet
claimed, sharing the pubkey-hash byte both register successfully, and the
shared byte is claimed afterwards. -/
theorem shared_pubkeyhash_both_register (p1 p2 : Params) (s : RegistryState)
    (hshare : p1.PubKeyHashAddrID = p2.PubKeyHashAddrID)
    (h1 : p1.Net ∉ s.registeredNets)
    (h2 : p2.Net ∉ s.registeredNets)
    (hne : p1.Net ≠ p2.Net) :
    (Register p1 s).1 = none ∧
    (Register p2 (Register p1 s).2).1 = none ∧
    IsPubKeyHashAddrID (Register p2 (Register p1 s).2).2 p1.PubKeyHashAddrID = true := by
  have hn2 : p2.Net ∉ (Register p1 s).2.registeredNets := by
    rw [register_not_mem p1 s h1]
    simp only [List.mem_cons, not_or]
    exact ⟨fun hc => hne (hc.symm), h2⟩
  have e1 := register_not_mem p1 s h1
  have e2 := register_not_mem p2 _ hn2
  refine ⟨by rw [e1], by rw [e2], ?_⟩
  rw [e2]
  simp [IsPubKeyHashAddrID, hshare]

/-- Witness for claim C7 at a concrete input: customA and customB share the
pubkey-hash byte 0x10 and both register from a fresh registry, after which
the byte is claimed. -/
theorem shared_pubkeyhash_both_register_witness :
    (Register customA freshRegistry).1 = none ∧
    (Register customB (Register customA freshRegistry).2).1 = none ∧
    IsPubKeyHashAddrID (Register customB (Register customA freshRegistry).2).2
      customA.PubKeyHashAddrID = true :=
  shared_pubkeyhash_both_register customA customB freshRegistry rfl (by decide) (by decide)
    (by decide)

lemma registerIgnore_mono (p : Params) (s : RegistryState) :
    (∀ n, n ∈ s.registeredNets → n ∈ (registerIgnore p s).registeredNets) ∧
    (∀ b, b ∈ s.pubKeyHashAddrIDs → b ∈ (registerIgnore p s).pubKeyHashAddrIDs) ∧
    (∀ b, b ∈ s.scriptHashAddrIDs → b ∈ (registerIgnore p s).scriptHashAddrIDs) ∧
    (∀ b, b ∈ s.aztecAddrIDs → b ∈ (registerIgnore p s).aztecAddrIDs) ∧
    (∀ k, (hdLookup s.hdPrivToPubKeyIDs k).isSome = true →
      (hdLookup (registerIgnore p s).hdPrivToPubKeyIDs k).isSome = true) := by
  unfold registerIgnore
  by_cases hm : p.Net ∈ s.registeredNets
  · unfold Register
    rw [if_pos hm]
    exact ⟨fun _ h => h, fun _ h => h, fun _ h => h, fun _ h => h, fun _ h => h⟩
  · rw [register_not_mem p s hm]
    refine ⟨fun n h => List.mem_cons_of_mem _ h, fun b h => List.mem_cons_of_mem _ h,
      fun b h => List.mem_cons_of_mem _ h, fun b h => ?_, fun k h => ?_⟩
    · dsimp only
      split
      · exact List.mem_cons_of_mem _ h
      · exact h
    · dsimp only [hdLookup]
      split
      · rfl
      · exact h

/-- Claim C8: the registry is append-only: across any sequence of Register
calls, successful or failing, every claimed network magic, claimed prefix
byte, and claimed HD private magic stays claimed, and membership queries on
claimed identifiers keep returning true (queries are pure and never change
the state). -/
theorem registry_append_only (ps : List Params) (s : RegistryState) :
    (∀ n, n ∈ s.registeredNets → n ∈ (runRegisters ps s).registeredNets) ∧
    (∀ b, IsPubKeyHashAddrID s b = true → IsPubKeyHashAddrID (runRegisters ps s) b = true) ∧
    (∀ b, IsScriptHashAddrID s b = true → IsScriptHashAddrID (runRegisters ps s) b = true) ∧
    (∀ b, IsAztecAddrID s b = true → IsAztecAddrID (runRegisters ps s) b = true) ∧
    (∀ k, (hdLookup s.hdPrivToPubKeyIDs k).isSome = true →
      (hdLookup (runRegisters ps s).hdPrivToPubKeyIDs k).isSome = true) := by
  induction ps generalizing s with
  | nil => exact ⟨fun _ h => h, fun _ h => h, fun _ h => h, fun _ h => h, fun _ h => h⟩
  | cons p ps ih =>
    have hstep := registerIgnore_mono p s
    have hrec := ih (registerIgnore p s)
    have hrun : runRegisters (p :: ps) s = runRegisters ps (registerIgnore p s) := rfl
    rw [hrun]
    refine ⟨fun n h => hrec.1 n (hstep.1 n h), fun b h => ?_, fun b h => ?_, fun b h => ?_,
      fun k h => hrec.2.2.2.2 k (hstep.2.2.2.2 k h)⟩
    · exact hrec.2.1 b (decide_eq_true (hstep.2.1 b (of_decide_eq_true h)))
    · exact hrec.2.2.1 b (decide_eq_true (hstep.2.2.1 b (of_decide_eq_true h)))
    · exact hrec.2.2.2.1 b (decide_eq_true (hstep.2.2.2.1 b (of_decide_eq_true h)))

/-- Witness for claim C8 at a concrete input: the pubkey-hash byte of the
main network, claimed before a later registration of the simulation
network, is still claimed after it. -/
theorem registry_append_only_witness :
    IsPubKeyHashAddrID
      (runRegisters [SimNetParams] (registerIgnore MainNetParams freshRegistry)) 0x00 = true :=
  (registry_append_only [SimNetParams] (registerIgnore MainNetParams freshRegistry)).2.1 0x00
    (by decide)

/-- Claim C10 counterexample: a record satisfying all the sign and range
hypotheses of the claim (window 1, block time 2 to the 57th nanoseconds,
down dampening 100 percent, up dampening 0 percent) makes the int64
multiplication inside MaxActualTimespan overflow and turn negative, so the
dampened maximum falls below the averaging window timespan and the claimed
band ordering fails. -/
theorem dampening_band_overflow_cex :
    0 ≤ overflowParams.PowAveragingWindow ∧
    0 ≤ overflowParams.TargetTimePerBlock ∧
    0 ≤ overflowParams.PowMaxAdjustDown ∧
    0 ≤ overflowParams.PowMaxAdjustUp ∧
    overflowParams.PowMaxAdjustUp ≤ 100 ∧
    ¬ (MinActualTimespan overflowParams ≤ AveragingWindowTimespan overflowParams ∧
       AveragingWindowTimespan overflowParams ≤ MaxActualTimespan overflowParams) := by
  decide

/-- Claim C10 as amended: the dampening band ordering
MinActualTimespan ≤ AveragingWindowTimespan ≤ MaxActualTimespan holds for
every record with nonnegative window, block time and dampening
percentages, up dampening at most 100, provided the int64 duration
arithmetic does not overflow: both 100 plus the down percentage and the
product window times block time times (100 plus the down percentage) stay
below 2 to the 63rd. -/
theorem dampening_band_ordering (p : Params)
    (hw : 0 ≤ p.PowAveragingWindow) (ht : 0 ≤ p.TargetTimePerBlock)
    (hd : 0 ≤ p.PowMaxAdjustDown) (hu0 : 0 ≤ p.PowMaxAdjustUp)
    (hu1 : p.PowMaxAdjustUp ≤ 100)
    (hdb : 100 + p.PowMaxAdjustDown < 2 ^ 63)
    (hb : p.PowAveragingWindow * p.TargetTimePerBlock * (100 + p.PowMaxAdjustDown) < 2 ^ 63) :
    MinActualTimespan p ≤ AveragingWindowTimespan p ∧
    AveragingWindowTimespan p ≤ MaxActualTimespan p := by
  have hwt0 : 0 ≤ p.PowAveragingWindow * p.TargetTimePerBlock := mul_nonneg hw ht
  have hwt_le : p.PowAveragingWindow * p.TargetTimePerBlock ≤
      p.PowAveragingWindow * p.TargetTimePerBlock * (100 + p.PowMaxAdjustDown) :=
    le_mul_of_one_le_right hwt0 (by omega)
  have hwt_lt : p.PowAveragingWindow * p.TargetTimePerBlock < 2 ^ 63 :=
    lt_of_le_of_lt hwt_le hb
  have hawt : AveragingWindowTimespan p = p.PowAveragingWindow * p.TargetTimePerBlock := by
    unfold AveragingWindowTimespan
    exact wrap64_eq_self _ (by omega) hwt_lt
  have hda : wrap64 (100 + p.PowMaxAdjustDown) = 100 + p.PowMaxAdjustDown :=
    wrap64_eq_self _ (by omega) hdb
  have hua : wrap64 (100 - p.PowMaxAdjustUp) = 100 - p.PowMaxAdjustUp :=
    wrap64_eq_self _ (by omega) (by omega)
  have hprodD0 : 0 ≤ p.PowAveragingWindow * p.TargetTimePerBlock * (100 + p.PowMaxAdjustDown) :=
    mul_nonneg hwt0 (by omega)
  have hprodD :
      wrap64 (p.PowAveragingWindow * p.TargetTimePerBlock * (100 + p.PowMaxAdjustDown)) =
        p.PowAveragingWindow * p.TargetTimePerBlock * (100 + p.PowMaxAdjustDown) :=
    wrap64_eq_self _ (by omega) hb
  have hUle : p.PowAveragingWindow * p.TargetTimePerBlock * (100 - p.PowMaxAdjustUp) ≤
      p.PowAveragingWindow * p.TargetTimePerBlock * (100 + p.PowMaxAdjustDown) :=
    mul_le_mul_of_nonneg_left (by omega) hwt0
  have hprodU0 : 0 ≤ p.PowAveragingWindow * p.TargetTimePerBlock * (100 - p.PowMaxAdjustUp) :=
    mul_nonneg hwt0 (by omega)
  have hprodU :
      wrap64 (p.PowAveragingWindow * p.TargetTimePerBlock * (100 - p.PowMaxAdjustUp)) =
        p.PowAveragingWindow * p.TargetTimePerBlock * (100 - p.PowMaxAdjustUp) :=
    wrap64_eq_self _ (by omega) (lt_of_le_of_lt hUle hb)
  constructor
  · unfold MinActualTimespan
    rw [hawt, hua, hprodU, tdiv_eq_ediv _ hprodU0]
    calc p.PowAveragingWindow * p.TargetTimePerBlock * (100 - p.PowMaxAdjustUp) / 100 ≤
        p.PowAveragingWindow * p.TargetTimePerBlock * 100 / 100 :=
          Int.ediv_le_ediv (by norm_num) (mul_le_mul_of_nonneg_left (by omega) hwt0)
      _ = p.PowAveragingWindow * p.TargetTimePerBlock :=
          Int.mul_ediv_cancel _ (by norm_num)
  · unfold MaxActualTimespan
    rw [hawt, hda, hprodD, tdiv_eq_ediv _ hprodD0]
    rw [Int.le_ediv_iff_mul_le (by norm_num)]
    exact mul_le_mul_of_nonneg_left (by omega) hwt0

/-- Witness for the amended claim C10 at a concrete input: the band
ordering on the main network parameters. -/
theorem dampening_band_ordering_witness :
    MinActualTimespan MainNetParams ≤ AveragingWindowTimespan MainNetParams ∧
    AveragingWindowTimespan MainNetParams ≤ MaxActualTimespan MainNetParams :=
  dampening_band_ordering MainNetParams (by decide) (by decide) (by decide) (by decide)
    (by decide) (by decide) (by decide)

end Prova
